import Mathlib

/-!
Verification of the gptwitch Twitch chatbot against its specification.

Shallow embedding conventions:
* Python `str` is modelled as `List Char` where character-level operations
  matter, and as Lean `String` where strings are used as atoms (usernames,
  channel names, dict keys).
* Python `float` timestamps (`time.time()`, `datetime.now()`) are modelled as
  a logical integer clock; sequential calls yield strictly increasing values.
* Python exceptions are modelled with `Except`.
* `asyncio.PriorityQueue` (a binary min-heap via `heapq`) is modelled as a
  multiset of entries from which `get()` removes a minimal element under the
  Python tuple order; with pairwise comparable entries the minimum is unique,
  so a list plus `popMin` is a faithful model.
-/

/-- Python substring containment `sub in l` on strings modelled as char lists. -/
def pyContains (sub : List Char) : List Char → Bool
  | [] => sub.isEmpty
  | a :: l => sub.isPrefixOf (a :: l) || pyContains sub l

/-- Python `str.lower()` restricted to its ASCII behaviour. -/
def pyLower (l : List Char) : List Char := l.map Char.toLower

/-- Python `str.strip()`: drop leading and trailing whitespace. -/
def pyStrip (l : List Char) : List Char :=
  ((l.dropWhile Char.isWhitespace).reverse.dropWhile Char.isWhitespace).reverse

/-- Python slice `xs[-c:]` for a nonnegative int `c`.  Note `xs[-0:]` is
`xs[0:]`, the whole list; for `0 < c` it is the last `min c (length xs)`
elements. -/
def pyTailSlice (xs : List α) (c : Nat) : List α :=
  if c = 0 then xs else xs.drop (xs.length - c)

/-- Python `collections.deque(maxlen := n)` append: add on the right, evicting
from the left whenever the bound is exceeded. -/
def dequeAppend (maxlen : Nat) (xs : List α) (x : α) : List α :=
  let ys := xs ++ [x]
  if ys.length ≤ maxlen then ys else ys.drop (ys.length - maxlen)

/-- Python `set.add` on a set modelled as a duplicate-free list. -/
def setAdd (s : List String) (x : String) : List String :=
  if x ∈ s then s else s ++ [x]

/-! ## utils/queue_manager.py -/

/-- `QueueItem` from utils/queue_manager.py: `data` is an opaque identity,
`priority` the integer passed to `enqueue` ("Higher number = higher priority"
per the source comment), `created_at` the `time.time()` value at construction,
modelled as a strictly increasing logical clock. -/
structure QueueItem where
  data : Nat
  priority : Int
  created_at : Nat
deriving DecidableEq, Repr

/-- `QueueItem.__lt__`: equal priorities compare by `created_at` ascending,
otherwise by `priority` descending (`self.priority > other.priority`). -/
def QueueItem.lt (a b : QueueItem) : Bool :=
  if a.priority = b.priority then a.created_at < b.created_at
  else b.priority < a.priority

/-- Entries of the `asyncio.PriorityQueue`: `enqueue` puts the raw tuple
`(priority, item)`. -/
abbrev HeapEntry := Int × QueueItem

/-- Python tuple comparison on `(priority, item)` entries: first components
compare as ints, ties fall through to `QueueItem.__lt__`. -/
def entryLt (x y : HeapEntry) : Bool :=
  x.1 < y.1 || (x.1 = y.1 && QueueItem.lt x.2 y.2)

/-- Removal of a minimal entry, as `heapq` pops the smallest element of the
heap; leftmost-biased among incomparable duplicates (the claims only involve
pairwise comparable entries, for which the minimum is unique). -/
def popMin : List HeapEntry → Option (HeapEntry × List HeapEntry)
  | [] => none
  | x :: xs =>
    match popMin xs with
    | none => some (x, [])
    | some (m, rest) => if entryLt m x then some (m, x :: rest) else some (x, xs)

/-- Repeatedly popping the queue with a fuel bound. -/
def popAllFuel : Nat → List HeapEntry → List QueueItem
  | 0, _ => []
  | n + 1, l =>
    match popMin l with
    | none => []
    | some (e, rest) => e.2 :: popAllFuel n rest

/-- The sequence of items obtained by the `_worker` pop
(`_, item = await self.queue.get()`) until the queue is empty. -/
def popAll (l : List HeapEntry) : List QueueItem := popAllFuel l.length l

/-- `AsyncQueueManager.enqueue` applied to a sequence of priorities: item `i`
is enqueued with priority `ps[i]` and `created_at = i` (the strictly
increasing `time.time()` clock), and the raw tuple `(priority, item)` is put
on the priority queue. -/
def enqueueAll (ps : List Int) : List HeapEntry :=
  ps.enum.map (fun pair => (pair.2, QueueItem.mk pair.1 pair.2 pair.1))

/-- The `self.stats` dict of `AsyncQueueManager`; processing times are
modelled as rationals. -/
structure QueueStats where
  enqueued : Nat
  processed : Nat
  errors : Nat
  avg_processing_time : ℚ
  total_processing_time : ℚ
deriving DecidableEq, Repr

/-- The body of `AsyncQueueManager._worker` for one popped item, from the
inner `try` to `self.queue.task_done()`.  `callbackRaises` tells whether the
callback raises an `Exception`, `processTime` is the elapsed callback time.
The returned `Bool` records that `task_done()` was called. -/
def workerProcess (stats : QueueStats) (callbackRaises : Bool)
    (processTime : ℚ) : QueueStats × Bool :=
  if callbackRaises then
    ({ stats with errors := stats.errors + 1 }, true)
  else
    let count := stats.processed + 1
    let total := stats.total_processing_time + processTime
    ({ stats with
        processed := count,
        total_processing_time := total,
        avg_processing_time := total / (count : ℚ) }, true)

/-- The `while self.running` loop of `_worker` run over a list of popped
items, each given as (callback raises?, processing time). -/
def workerRun (stats : QueueStats) (items : List (Bool × ℚ)) : QueueStats :=
  items.foldl (fun s it => (workerProcess s it.1 it.2).1) stats

/-- Observable counters of the underlying `asyncio.Queue`: `size` is
`qsize()` (items currently stored) and `unfinished` is the internal
`_unfinished_tasks` counter (puts not yet matched by `task_done()`), which
`join()` waits to reach zero.  A popped but unmarked item contributes to
`unfinished` but not to `size`. -/
structure AQState where
  size : Nat
  unfinished : Nat
deriving DecidableEq, Repr

/-- `AsyncQueueManager.wait_empty`: called in state `entry`, it may complete
in state `ret` — immediately (with the state unchanged) when `qsize() = 0`,
and otherwise only once `join()` observes `unfinished = 0`. -/
def waitEmptyCanReturn (entry ret : AQState) : Bool :=
  if entry.size = 0 then ret == entry else ret.unfinished == 0

/-! ## models/chat_message.py and models/stream_event.py -/

/-- `ChatMessage` dataclass (the `emotes` and `tags` dicts, unused by the
claims, are omitted). -/
structure ChatMsg where
  channel : String
  username : String
  message : String
  timestamp : Int
  is_subscriber : Bool := false
  is_mod : Bool := false
  bits : Nat := 0
deriving DecidableEq, Repr

/-- `ChatMessage.is_mention`: `f"@{username.lower()}" in self.message.lower()`. -/
def ChatMsg.isMention (m : ChatMsg) (username : String) : Bool :=
  pyContains ('@' :: pyLower username.toList) (pyLower m.message.toList)

/-- `StreamEvent` restricted to the fields the context window reads. -/
structure StreamEvt where
  event_type : String
  username : Option String
  timestamp : Int
deriving DecidableEq, Repr

/-! ## models/context_window.py -/

/-- `ContextWindow` state: the two bounded deques plus the `self.metadata`
dict (`created_at`, `message_count`, `event_count`, `active_users`). -/
structure ContextWindow where
  maxSize : Nat
  maxAge : Option Nat
  messages : List ChatMsg
  events : List StreamEvt
  createdAt : Int
  messageCount : Nat
  eventCount : Nat
  activeUsers : List String
deriving DecidableEq, Repr

/-- `ContextWindow.__init__(max_size, max_age)` at time `now`: both deques
empty (`messages` bounded by `max_size`, `events` by `max_size // 2`), all
counters zero. -/
def ContextWindow.init (maxSize : Nat) (maxAge : Option Nat) (now : Int) :
    ContextWindow :=
  { maxSize := maxSize, maxAge := maxAge, messages := [], events := [],
    createdAt := now, messageCount := 0, eventCount := 0, activeUsers := [] }

/-- `ContextWindow._cleanup_old_messages` at time `now`: pop from the left
while the head is older than `now - max_age`. -/
def ContextWindow.cleanupOldMessages (w : ContextWindow) (now : Int) :
    ContextWindow :=
  match w.maxAge with
  | none => w
  | some age =>
    { w with messages := w.messages.dropWhile (fun m => m.timestamp < now - (age : Int)) }

/-- `ContextWindow.add_message` at time `now`: append to the bounded deque,
bump the cumulative counter, record the user, then clean up by age when
`max_age` is set. -/
def ContextWindow.addMessage (w : ContextWindow) (m : ChatMsg) (now : Int) :
    ContextWindow :=
  let w1 := { w with
      messages := dequeAppend w.maxSize w.messages m,
      messageCount := w.messageCount + 1,
      activeUsers := setAdd w.activeUsers m.username }
  if w1.maxAge.isSome then w1.cleanupOldMessages now else w1

/-- A sequence of `add_message` calls, all at time `now`. -/
def ContextWindow.addMessages (w : ContextWindow) (ms : List ChatMsg) (now : Int) :
    ContextWindow :=
  ms.foldl (fun acc m => acc.addMessage m now) w

/-- `ContextWindow.get_recent_messages(count)`: the whole buffer when `count`
is `None` or at least the buffer length, otherwise the Python slice
`list(messages)[-count:]`. -/
def ContextWindow.getRecentMessages (w : ContextWindow) (count : Option Nat) :
    List ChatMsg :=
  match count with
  | none => w.messages
  | some c => if w.messages.length ≤ c then w.messages else pyTailSlice w.messages c

/-- `ContextWindow.clear` at time `now`: empty both deques and reset the
metadata dict. -/
def ContextWindow.clear (w : ContextWindow) (now : Int) : ContextWindow :=
  { w with messages := [], events := [], createdAt := now,
           messageCount := 0, eventCount := 0, activeUsers := [] }

/-- Return value of `ContextWindow.get_context_summary`. -/
structure ContextSummary where
  window_age_seconds : Int
  message_count : Nat
  event_count : Nat
  current_message_count : Nat
  current_event_count : Nat
  active_user_count : Nat
  active_users : List String
deriving DecidableEq, Repr

/-- `ContextWindow.get_context_summary` evaluated at time `now`. -/
def ContextWindow.getContextSummary (w : ContextWindow) (now : Int) :
    ContextSummary :=
  { window_age_seconds := now - w.createdAt,
    message_count := w.messageCount,
    event_count := w.eventCount,
    current_message_count := w.messages.length,
    current_event_count := w.events.length,
    active_user_count := w.activeUsers.length,
    active_users := w.activeUsers.take 10 }

/-! ## bot/twitch_bot.py -/

/-- `TwitchBot.should_respond_to`: true exactly when
`f"@{self.username.lower()}"` occurs in `message.message.lower()`. -/
def shouldRespondTo (botUsername : String) (text : String) : Bool :=
  pyContains ('@' :: pyLower botUsername.toList) (pyLower text.toList)

/-! ## bot/command_handler.py -/

/-- Python runtime error kinds raised by the embedded code. -/
inductive PyError where
  | nameError
deriving DecidableEq, Repr

/-- `CommandHandler.cmd_reset`.  The guard is
`not (message.author.is_mod or message.author.name.lower() == channel.name.lower())`:
when `is_mod` is true the `or` short-circuits and the reset proceeds; when it
is false, evaluating `channel.name` raises `NameError` because the local name
`channel` is only assigned later (line 99 assigns `channel_name`, never
`channel`), so neither the rejection reply
`"❌ Only moderators can reset the bot's memory!"` nor the owner comparison is
ever reached.  On the mod path the window is cleared and the confirmation is
sent only when the channel is present in `self.bot.context_windows`. -/
def cmdReset (author_is_mod : Bool) (w : ContextWindow) (inWindows : Bool)
    (now : Int) : Except PyError (ContextWindow × Option String) :=
  if author_is_mod then
    if inWindows then
      Except.ok (w.clear now, some "🧠 My memory for this channel has been reset!")
    else
      Except.ok (w, none)
  else
    Except.error PyError.nameError

/-- `CommandHandler.handle_command` dispatching `!reset`: any exception from
the command is caught and logged, producing no reply and no state change. -/
def handleCommandReset (author_is_mod : Bool) (w : ContextWindow)
    (inWindows : Bool) (now : Int) : ContextWindow × Option String :=
  match cmdReset author_is_mod w inWindows now with
  | Except.ok r => r
  | Except.error _ => (w, none)

/-! ## config/emotes.py and bot/response_generator.py -/

/-- Shape of the dict returned by `get_emotes()`: it returns
`_emote_cache["data"]`, whose keys are only the source names `"twitch"`,
`"bttv"`, `"ffz"` and `"7tv"` (populated by `_load_default_emotes` and the
four `_fetch_*` functions, and round-tripped unchanged through the cache
file).  The category sets — including `"all"` — live in the separate
`_emote_cache["categories"]` dict returned by `get_emote_categories()`.
Each source maps to a collection of emote codes (the per-code metadata is
irrelevant to the claims). -/
structure EmotesDict where
  twitch : List (List Char)
  bttv : List (List Char)
  ffz : List (List Char)
  seventv : List (List Char)
deriving DecidableEq, Repr

/-- Python `dict.get` on the `get_emotes()` result. -/
def EmotesDict.get (d : EmotesDict) (key : String) : Option (List (List Char)) :=
  if key = "twitch" then some d.twitch
  else if key = "bttv" then some d.bttv
  else if key = "ffz" then some d.ffz
  else if key = "7tv" then some d.seventv
  else none

/-- Line 115 of response_generator.py:
`re.sub(r'^["\x7d...` — the regex removes at most one quote character
(`"` or `'`) at the very start and at most one at the very end. -/
def stripEdgeQuotes (l : List Char) : List Char :=
  let l1 := match l with
    | c :: rest => if c = '"' || c = '\'' then rest else l
    | [] => []
  match l1.getLast? with
  | some c => if c = '"' || c = '\'' then l1.dropLast else l1
  | none => l1

/-- The cleanup preceding the length check: `response.strip()` then the
edge-quote removal. -/
def cleanedResponse (r : List Char) : List Char := stripEdgeQuotes (pyStrip r)

/-- The three-character ellipsis appended on truncation. -/
def ellipsis : List Char := ['.', '.', '.']

/-- Lines 114-119 of `_post_process_response`: the cleaned response,
hard-truncated to `response[:497] + "..."` when longer than 500 characters. -/
def truncatedResponse (r : List Char) : List Char :=
  let s := cleanedResponse r
  if 500 < s.length then s.take 497 ++ ellipsis else s

/-- `ResponseGenerator._post_process_response`.  `emotes` is the
`get_emotes()` result, `randBelow03` models `random.random() < 0.3`, and
`choice` selects the `random.choice` index.  `all_emotes` is
`list(emotes.get("all", []))`; the append branch fires only when the chance
hits, no known emote occurs in the response, and `all_emotes` is non-empty. -/
def postProcessResponse (response : List Char) (emotes : EmotesDict)
    (randBelow03 : Bool) (choice : Nat) : List Char :=
  let r2 := truncatedResponse response
  let allEmotes := (emotes.get "all").getD []
  if randBelow03 && !(allEmotes.any (fun e => pyContains e r2))
      && !allEmotes.isEmpty then
    r2 ++ ' ' :: allEmotes.getD (choice % allEmotes.length) []
  else r2

/-! ## Sample data used by concrete evaluations -/

/-- A first sample chat message. -/
def msgA : ChatMsg := { channel := "chan", username := "alice", message := "hello", timestamp := 1 }

/-- A second sample chat message. -/
def msgB : ChatMsg := { channel := "chan", username := "bob", message := "hi", timestamp := 2 }

/-- A third sample chat message. -/
def msgC : ChatMsg := { channel := "chan", username := "carol", message := "yo", timestamp := 3 }

/-- A fresh window of capacity 50 holding one message. -/
def sampleWindow : ContextWindow := (ContextWindow.init 50 none 0).addMessage msgA 1

/-- A fresh window of capacity 50 holding three messages. -/
def window3 : ContextWindow := (ContextWindow.init 50 none 0).addMessages [msgA, msgB, msgC] 3

/-! ## C1 and C2: pop order of the priority queue -/

/-- C1: the claim says that of two queued items the one with the larger
`priority` integer is popped first.  In the code `enqueue` puts the raw tuple
`(priority, item)` into `asyncio.PriorityQueue`, a min-heap, so the worker
pops ascending numeric priority: after `enqueue(a, priority := 1)` and
`enqueue(b, priority := 2)` the priority-1 item is popped before the
priority-2 item, contradicting the claim and the code's own docstrings
("Higher number = higher priority", "higher = processed sooner"). -/
theorem priority_min_heap_pops_ascending :
    (popAll (enqueueAll [1, 2])).map QueueItem.data = [0, 1]
    ∧ (popAll (enqueueAll [1, 2])).map QueueItem.priority = [1, 2] := by
  decide

/-- C2: with priorities `[5, 5, 3, 5]` enqueued in order, the pops are the
priority-3 item first and then the three priority-5 items in enqueue
(`created_at`) order.  The FIFO tie-break within equal priority holds, but
the total pop order is (priority ascending, enqueue time ascending), not the
claimed (priority descending, enqueue time ascending). -/
theorem equal_priority_fifo_lower_priority_first :
    (popAll (enqueueAll [5, 5, 3, 5])).map (fun it => (it.data, it.priority))
      = [(2, 3), (0, 5), (1, 5), (3, 5)] := by
  decide

/-! ## C3: worker error path -/

/-- C3: when the callback of a popped item raises, the worker increments only
`errors`, leaves `processed`, `avg_processing_time`, `total_processing_time`
and `enqueued` unchanged, still calls `task_done()`, and the loop goes on to
process the remaining items. -/
theorem worker_error_counts_and_continues (stats : QueueStats) (t : ℚ)
    (rest : List (Bool × ℚ)) :
    (workerProcess stats true t).1.errors = stats.errors + 1
    ∧ (workerProcess stats true t).1.processed = stats.processed
    ∧ (workerProcess stats true t).1.avg_processing_time = stats.avg_processing_time
    ∧ (workerProcess stats true t).1.total_processing_time = stats.total_processing_time
    ∧ (workerProcess stats true t).1.enqueued = stats.enqueued
    ∧ (workerProcess stats true t).2 = true
    ∧ workerRun stats ((true, t) :: rest) = workerRun (workerProcess stats true t).1 rest := by
  simp [workerProcess, workerRun]

/-! ## C4: reset command privilege -/

/-- C4: for a non-moderator invoker `cmd_reset` raises `NameError` while
evaluating the guard (the local `channel` is referenced before assignment),
`handle_command` swallows it, and so the window is left unchanged but no
rejection reply is sent — the claim instead promises a rejection reply.  For
a moderator the window is emptied and the confirmation reply is sent. -/
theorem cmd_reset_nonmod_no_reply :
    handleCommandReset false sampleWindow true 2 = (sampleWindow, none)
    ∧ cmdReset false sampleWindow true 2 = Except.error PyError.nameError
    ∧ sampleWindow.messages ≠ []
    ∧ (handleCommandReset true sampleWindow true 2).1.messages = []
    ∧ (handleCommandReset true sampleWindow true 2).1.events = []
    ∧ (handleCommandReset true sampleWindow true 2).1.messageCount = 0
    ∧ (handleCommandReset true sampleWindow true 2).2
        = some "🧠 My memory for this channel has been reset!" := by
  refine ⟨rfl, rfl, ?_, rfl, rfl, rfl, rfl⟩
  decide

/-! ## C5: mention trigger -/

/-- Substring search `pyContains` agrees with the existence of a split. -/
lemma pyContains_iff (sub : List Char) (l : List Char) :
    pyContains sub l = true ↔ ∃ a b, l = a ++ sub ++ b := by
  induction l with
  | nil =>
    constructor
    · intro h
      have hs : sub = [] := by simpa [pyContains, List.isEmpty_iff] using h
      exact ⟨[], [], by simp [hs]⟩
    · rintro ⟨a, b, h⟩
      have h' := h.symm
      simp only [List.append_assoc, List.append_eq_nil] at h'
      simp [pyContains, h'.2.1]
  | cons c l ih =>
    simp only [pyContains, Bool.or_eq_true]
    rw [ih, List.isPrefixOf_iff_prefix]
    constructor
    · rintro (⟨tl, htl⟩ | ⟨a, b, rfl⟩)
      · exact ⟨[], tl, by simp [← htl]⟩
      · exact ⟨c :: a, b, by simp⟩
    · rintro ⟨a, b, h⟩
      cases a with
      | nil =>
        exact Or.inl ⟨b, by simpa using h.symm⟩
      | cons x a' =>
        refine Or.inr ⟨a', b, ?_⟩
        simp only [List.cons_append, List.cons.injEq] at h
        exact h.2

/-- C5: `should_respond_to` returns true exactly when the lowercased message
text contains `'@'` immediately followed by the lowercased bot username as a
substring (no whole-token requirement), and no other message is eligible. -/
theorem should_respond_iff_mention (u t : String) :
    shouldRespondTo u t = true
      ↔ ∃ a b, pyLower t.toList = a ++ ('@' :: pyLower u.toList) ++ b := by
  unfold shouldRespondTo
  exact pyContains_iff _ _

/-! ## C7: get_recent_messages -/

/-- C7: on a three-message buffer, `get_recent_messages(2)` and
`get_recent_messages(None)` behave as specified, but `get_recent_messages(0)`
returns the whole buffer rather than the empty list: the Python slice
`list(messages)[-0:]` is `[0:]`, the full list. -/
theorem get_recent_messages_zero_returns_all :
    window3.messages = [msgA, msgB, msgC]
    ∧ window3.getRecentMessages (some 0) = [msgA, msgB, msgC]
    ∧ window3.getRecentMessages (some 0) ≠ []
    ∧ window3.getRecentMessages (some 2) = [msgB, msgC]
    ∧ window3.getRecentMessages none = [msgA, msgB, msgC] := by
  decide

/-! ## C8: wait_empty -/

/-- C8, counterexample: the state with `qsize() = 0` and one popped item not
yet marked done is reachable (put one item, let a worker pop it and not yet
call `task_done()`); `wait_empty` called there returns immediately even
though an item is in flight and unmarked, so the claim fails. -/
theorem wait_empty_returns_with_inflight_item :
    waitEmptyCanReturn ⟨0, 1⟩ ⟨0, 1⟩ = true
    ∧ ¬((AQState.mk 0 1).size = 0 ∧ (AQState.mk 0 1).unfinished = 0) := by
  decide

/-- C8, amended: provided the queue is non-empty when `wait_empty` is called,
it returns only once every item — queued or popped — has been marked done
(and hence the queue is empty); `size ≤ unfinished` is the queue's counter
invariant. -/
theorem wait_empty_nonempty_entry_drains (entry ret : AQState)
    (h1 : entry.size ≠ 0) (h2 : ret.size ≤ ret.unfinished)
    (h3 : waitEmptyCanReturn entry ret = true) :
    ret.size = 0 ∧ ret.unfinished = 0 := by
  unfold waitEmptyCanReturn at h3
  rw [if_neg h1] at h3
  have h4 : ret.unfinished = 0 := by simpa using h3
  omega

/-- Witness for the amended C8 theorem at `entry = ⟨2, 2⟩`, `ret = ⟨0, 0⟩`. -/
theorem wait_empty_nonempty_entry_drains_witness :
    (AQState.mk 2 2).size ≠ 0
    ∧ (AQState.mk 0 0).size ≤ (AQState.mk 0 0).unfinished
    ∧ waitEmptyCanReturn ⟨2, 2⟩ ⟨0, 0⟩ = true
    ∧ ((AQState.mk 0 0).size = 0 ∧ (AQState.mk 0 0).unfinished = 0) :=
  ⟨by decide, by decide, by decide,
    wait_empty_nonempty_entry_drains ⟨2, 2⟩ ⟨0, 0⟩ (by decide) (by decide) (by decide)⟩

/-! ## C9 and C10: response post-processing -/

/-- The `get_emotes()` data dict has no key `"all"`. -/
lemma emotesDict_get_all (d : EmotesDict) : d.get "all" = none := by
  unfold EmotesDict.get
  rw [if_neg (by decide), if_neg (by decide), if_neg (by decide), if_neg (by decide)]

/-- Because `emotes.get("all", [])` is always empty, the emote branch of
`_post_process_response` never fires and the output is exactly the truncated
response. -/
lemma postProcess_eq_truncated (r : List Char) (d : EmotesDict) (b : Bool) (i : Nat) :
    postProcessResponse r d b i = truncatedResponse r := by
  simp [postProcessResponse, emotesDict_get_all]

/-- Length of the truncated response. -/
lemma truncated_length (r : List Char) :
    (truncatedResponse r).length = min (cleanedResponse r).length 500 := by
  simp only [truncatedResponse]
  split
  · next h =>
    simp only [List.length_append, List.length_take, ellipsis,
      List.length_cons, List.length_nil]
    omega
  · next h => omega

/-- C9: after the whitespace/quote cleanup that precedes the length check, a
response longer than 500 characters becomes its first 497 characters plus the
three-character ellipsis — 500 characters in total — and a response of at
most 500 characters is returned unchanged. -/
theorem post_process_truncates_to_500 (r : List Char) (d : EmotesDict)
    (b : Bool) (i : Nat) :
    postProcessResponse r d b i
      = (if 500 < (cleanedResponse r).length
          then (cleanedResponse r).take 497 ++ ellipsis
          else cleanedResponse r)
    ∧ (postProcessResponse r d b i).length = min (cleanedResponse r).length 500 := by
  constructor
  · rw [postProcess_eq_truncated]
    simp [truncatedResponse]
  · rw [postProcess_eq_truncated, truncated_length]

/-- C10: the returned text never differs from the quote-stripped truncated
response and never exceeds 500 characters, because `get_emotes()` returns the
source-keyed data dict, which has no `"all"` key — so
`list(emotes.get("all", []))` is always empty and the emote append never
happens, contrary to the claim that it may push the text past 500. -/
theorem post_process_never_appends_emote (r : List Char) (d : EmotesDict)
    (b : Bool) (i : Nat) :
    postProcessResponse r d b i = truncatedResponse r
    ∧ (postProcessResponse r d b i).length ≤ 500
    ∧ EmotesDict.get d "all" = none := by
  refine ⟨postProcess_eq_truncated r d b i, ?_, emotesDict_get_all d⟩
  rw [postProcess_eq_truncated, truncated_length]
  omega

/-! ## C6: bounded window -/

lemma dequeAppend_eq_drop (n : Nat) (xs : List α) (x : α) :
    dequeAppend n xs x = (xs ++ [x]).drop ((xs.length + 1) - n) := by
  simp only [dequeAppend, List.length_append, List.length_cons, List.length_nil]
  split
  · next h =>
    rw [Nat.sub_eq_zero_of_le (by omega), List.drop_zero]
  · rfl

lemma dequeAppend_length (n : Nat) (xs : List α) (x : α) :
    (dequeAppend n xs x).length = min (xs.length + 1) n := by
  rw [dequeAppend_eq_drop]
  simp
  omega

lemma addMessage_fields (w : ContextWindow) (m : ChatMsg) (now : Int)
    (h : w.maxAge = none) :
    (w.addMessage m now).messages = dequeAppend w.maxSize w.messages m
    ∧ (w.addMessage m now).maxSize = w.maxSize
    ∧ (w.addMessage m now).maxAge = none
    ∧ (w.addMessage m now).messageCount = w.messageCount + 1 := by
  simp [ContextWindow.addMessage, h]

lemma addMessages_messages (ms : List ChatMsg) :
    ∀ (w : ContextWindow) (now : Int), w.maxAge = none →
      w.messages.length ≤ w.maxSize →
      (w.addMessages ms now).messages
        = (w.messages ++ ms).drop ((w.messages.length + ms.length) - w.maxSize)
      ∧ (w.addMessages ms now).messageCount = w.messageCount + ms.length := by
  induction ms with
  | nil =>
    intro w now hage hlen
    refine ⟨?_, ?_⟩
    · simp [ContextWindow.addMessages, Nat.sub_eq_zero_of_le hlen]
    · simp [ContextWindow.addMessages]
  | cons m rest ih =>
    intro w now hage hlen
    have hstep : w.addMessages (m :: rest) now
        = (w.addMessage m now).addMessages rest now := by
      simp [ContextWindow.addMessages]
    obtain ⟨hmsg, hsize, hage2, hcount⟩ := addMessage_fields w m now hage
    have hL2 : (w.addMessage m now).messages.length
        = min (w.messages.length + 1) w.maxSize := by
      rw [hmsg, dequeAppend_length]
    have hlen2 : (w.addMessage m now).messages.length ≤ (w.addMessage m now).maxSize := by
      rw [hsize]
      omega
    obtain ⟨ih1, ih2⟩ := ih (w.addMessage m now) now hage2 hlen2
    rw [hstep]
    constructor
    · rw [ih1, hL2, hsize, hmsg, dequeAppend_eq_drop]
      rw [← List.drop_append_of_le_length (by simp)]
      rw [List.drop_drop]
      have harr : (w.messages ++ [m]) ++ rest = w.messages ++ m :: rest := by
        simp
      rw [harr]
      congr 1
      simp only [List.length_cons]
      omega
    · rw [ih2, hcount]
      simp only [List.length_cons]
      omega

/-- C6: starting from a fresh window of capacity `N`, after adding `N + k`
messages the buffer holds exactly the last `N` in insertion order, the buffer
length never exceeded `N` at any intermediate point, and the summary reports
`current_message_count = N` and cumulative `message_count = N + k`. -/
theorem context_window_bounded_last_n (N k : Nat) (ms : List ChatMsg) (now : Int)
    (h : ms.length = N + k) :
    ((ContextWindow.init N none 0).addMessages ms now).messages = ms.drop k
    ∧ (∀ p s, ms = p ++ s →
        ((ContextWindow.init N none 0).addMessages p now).messages.length ≤ N)
    ∧ (((ContextWindow.init N none 0).addMessages ms now).getContextSummary now).current_message_count = N
    ∧ (((ContextWindow.init N none 0).addMessages ms now).getContextSummary now).message_count = N + k := by
  have base := addMessages_messages ms (ContextWindow.init N none 0) now rfl
    (by simp [ContextWindow.init])
  have hidx : ((ContextWindow.init N none 0).messages.length + ms.length)
      - (ContextWindow.init N none 0).maxSize = k := by
    simp [ContextWindow.init]
    omega
  have hmain : ((ContextWindow.init N none 0).addMessages ms now).messages = ms.drop k := by
    rw [base.1, hidx]
    simp [ContextWindow.init]
  refine ⟨hmain, ?_, ?_, ?_⟩
  · intro p s hps
    have bp := addMessages_messages p (ContextWindow.init N none 0) now rfl
      (by simp [ContextWindow.init])
    rw [bp.1]
    simp [ContextWindow.init]
    omega
  · simp only [ContextWindow.getContextSummary]
    rw [hmain]
    simp only [List.length_drop]
    omega
  · simp only [ContextWindow.getContextSummary]
    rw [base.2]
    simp [ContextWindow.init]
    omega

/-- Witness for C6 at `N = 2`, `k = 1` with three concrete messages. -/
theorem context_window_bounded_last_n_witness :
    ((ContextWindow.init 2 none 0).addMessages [msgA, msgB, msgC] 5).messages = [msgB, msgC]
    ∧ ((ContextWindow.init 2 none 0).addMessages [msgA] 5).messages.length ≤ 2
    ∧ (((ContextWindow.init 2 none 0).addMessages [msgA, msgB, msgC] 5).getContextSummary 5).current_message_count = 2
    ∧ (((ContextWindow.init 2 none 0).addMessages [msgA, msgB, msgC] 5).getContextSummary 5).message_count = 3 := by
  have h := context_window_bounded_last_n 2 1 [msgA, msgB, msgC] 5 rfl
  exact ⟨h.1, h.2.1 [msgA] [msgB, msgC] rfl, h.2.2.1, h.2.2.2⟩
